import Mathlib

/-!
Shallow embedding of the pogocache performance-tuning module
(src/performance_tuning.c, src/performance_tuning.h) and a model of the
cache engine contract described by the specification.

Conventions of the embedding:
- C `int` is embedded as `Int`.  Signed overflow is undefined behavior in C,
  so every defined execution is computed exactly by unbounded integers.
- C `size_t` is embedded as `Nat`.  The two explicit narrowing conversions
  that occur in the source (`size_t` to `int`, `int` to `size_t`) are made
  explicit by `intOfSizeT` and `toSizeT` below.
- C `double` arithmetic in this module only ever multiplies an integer value
  by a `double` literal and immediately truncates back to `int`, or compares
  against such a product.  Each literal is replaced by its exact binary64
  value m / 2^s, the product is rounded to 53 significant bits with
  round-to-nearest, ties-to-even (`rnd53`), and then truncated toward zero:
  this is bit-exact binary64 semantics for the operations the source uses.
- the unguarded integer division in `perf_validate_shards` (division by zero
  is undefined in C) makes that function partial; it returns `Option Bool`.
-/

/-- PERF_MIN_BACKLOG, performance_tuning.h line 60. -/
abbrev PERF_MIN_BACKLOG : Int := 256
/-- PERF_MAX_BACKLOG, performance_tuning.h line 61. -/
abbrev PERF_MAX_BACKLOG : Int := 16384
/-- PERF_MIN_QUEUESIZE, performance_tuning.h line 62. -/
abbrev PERF_MIN_QUEUESIZE : Int := 64
/-- PERF_MAX_QUEUESIZE, performance_tuning.h line 63. -/
abbrev PERF_MAX_QUEUESIZE : Int := 4096
/-- PERF_MIN_MAXCONNS, performance_tuning.h line 64. -/
abbrev PERF_MIN_MAXCONNS : Int := 128
/-- PERF_MAX_MAXCONNS, performance_tuning.h line 65. -/
abbrev PERF_MAX_MAXCONNS : Int := 131072
/-- PERF_MIN_SHARDS, performance_tuning.h line 66. -/
abbrev PERF_MIN_SHARDS : Int := 32
/-- PERF_MAX_SHARDS, performance_tuning.h line 67. -/
abbrev PERF_MAX_SHARDS : Int := 131072
/-- PERF_HIGH_MEMORY_THRESHOLD (4GB), performance_tuning.h line 70. -/
abbrev PERF_HIGH_MEMORY_THRESHOLD : Nat := 4 * 1024 * 1024 * 1024
/-- PERF_MEDIUM_MEMORY_THRESHOLD (2GB), performance_tuning.h line 71. -/
abbrev PERF_MEDIUM_MEMORY_THRESHOLD : Nat := 2 * 1024 * 1024 * 1024
/-- PERF_MEMORY_PER_CONNECTION (~12KB), performance_tuning.h line 73. -/
abbrev PERF_MEMORY_PER_CONNECTION : Nat := 12288
/-- PERF_MEMORY_PER_SHARD (~2KB), performance_tuning.h line 74. -/
abbrev PERF_MEMORY_PER_SHARD : Nat := 2048

/-- Conversion of a C `size_t` value to `int` (two-complement wrap modulo
2^32, the behavior of the reference compilers; out-of-range unsigned-to-signed
conversion is implementation-defined in C). -/
def intOfSizeT (n : Nat) : Int :=
  let m : Nat := n % 2 ^ 32
  if m < 2 ^ 31 then (m : Int) else (m : Int) - 2 ^ 32

/-- Conversion of a C `int` value to `size_t` (reduction modulo 2^64, fully
defined in C). -/
def toSizeT (z : Int) : Nat :=
  (z % (2 ^ 64 : Int)).toNat

/-- Round a natural number to the nearest value representable with a 53-bit
significand (binary64), round-to-nearest with ties-to-even.  The result is
again a natural number, exact for inputs below 2^53. -/
def rnd53 (n : Nat) : Nat :=
  if n < 2 ^ 53 then n
  else
    let k := n.log2 + 1
    let d := k - 53
    let q := n / 2 ^ d
    let r := n % 2 ^ d
    let h := 2 ^ (d - 1)
    let q2 := if h < r then q + 1 else if r < h then q else if q % 2 = 0 then q else q + 1
    q2 * 2 ^ d

/-- Binary64 semantics of the C expression `(int)(x * c)` where `x` is an
`int` and `c` a `double` literal with exact value `m / 2^s`: the `int` is
converted to `double` (exact), multiplied (rounded to 53 bits by `rnd53`,
which commutes with the exact scaling by `2^-s`), and truncated toward zero. -/
def f64mulTrunc (x : Int) (m s : Nat) : Int :=
  if 0 ≤ x then ((rnd53 (x.toNat * m) / 2 ^ s : Nat) : Int)
  else -((rnd53 ((-x).toNat * m) / 2 ^ s : Nat) : Int)

/-- Final bounds enforcement used by every `perf_calc_optimal_*` function:
`if (optimal < lo) optimal = lo; if (optimal > hi) optimal = hi;`. -/
def clampInt (lo hi x : Int) : Int :=
  let x1 := if x < lo then lo else x
  if x1 > hi then hi else x1

/-- Fuel-indexed unfolding of the loop
`while (power_of_2 < optimal) power_of_2 *= 2;`
in perf_calc_optimal_shards (performance_tuning.c lines 171-174). -/
def pow2LoopAux : Nat → Int → Int → Int
  | 0, _, p => p
  | fuel + 1, optimal, p => if p < optimal then pow2LoopAux fuel optimal (2 * p) else p

/-- Value of `power_of_2` after the loop, starting from 1.  The fuel
`optimal.toNat + 1` always suffices because the accumulator at least
doubles from 1 each iteration. -/
def pow2Loop (optimal : Int) : Int :=
  pow2LoopAux (optimal.toNat + 1) optimal 1

/-- struct system_resources, performance_tuning.h lines 30-37. -/
structure system_resources where
  cpu_cores : Int
  total_memory : Nat
  available_memory : Nat
  max_file_descriptors : Int
  has_high_memory : Bool
  has_many_cores : Bool
deriving DecidableEq

/-- perf_detect_system_resources, performance_tuning.c lines 24-45.  The
probed machine state is passed explicitly: `nprocs` is the value returned by
sys_nprocs(), `memory` the value returned by sys_memory(), and `rlim_max`
is `some v` when getrlimit succeeds with hard limit `v` (already converted
to `int`), `none` when it fails (fallback 1024). -/
def perf_detect_system_resources (nprocs : Int) (memory : Nat)
    (rlim_max : Option Int) : system_resources :=
  { cpu_cores := nprocs
    has_many_cores := decide (nprocs > 4)
    total_memory := memory
    available_memory := memory
    has_high_memory := decide (memory > PERF_HIGH_MEMORY_THRESHOLD)
    max_file_descriptors := rlim_max.getD 1024 }

/-- perf_calc_optimal_backlog, performance_tuning.c lines 48-72.  The
initializer `optimal = 2048` is dead (overwritten on line 53).  The double
literals 1.5, 0.75 and 1.25 are exactly 3/2, 3/4 and 5/4. -/
def perf_calc_optimal_backlog (r : system_resources) : Int :=
  let optimal : Int := 256 * r.cpu_cores
  let optimal :=
    if r.has_high_memory then f64mulTrunc optimal 3 1
    else if r.total_memory < PERF_MEDIUM_MEMORY_THRESHOLD then f64mulTrunc optimal 3 2
    else optimal
  let optimal := if r.has_many_cores then f64mulTrunc optimal 5 2 else optimal
  clampInt PERF_MIN_BACKLOG PERF_MAX_BACKLOG optimal

/-- perf_calc_optimal_queuesize, performance_tuning.c lines 75-101.  The
initializer `optimal = 512` is dead (overwritten on line 79).  The binary64
value of the literal 1.2 is 5404319552844595/2^52 and of 1.3 is
5854679515581645/2^52. -/
def perf_calc_optimal_queuesize (r : system_resources) : Int :=
  let optimal : Int := r.cpu_cores * 64
  let optimal :=
    if r.has_high_memory then r.cpu_cores * 128
    else if r.total_memory < PERF_MEDIUM_MEMORY_THRESHOLD then r.cpu_cores * 32
    else optimal
  let optimal := if r.cpu_cores ≥ 8 then f64mulTrunc optimal 5404319552844595 52 else optimal
  let optimal := if r.cpu_cores ≥ 16 then f64mulTrunc optimal 5854679515581645 52 else optimal
  clampInt PERF_MIN_QUEUESIZE PERF_MAX_QUEUESIZE optimal

/-- perf_calc_optimal_maxconns, performance_tuning.c lines 104-139.  The
initializer `optimal = 4096` is dead (every branch overwrites it).  Binary64
values: 0.85 = 7656119366529843/2^53, 0.75 = 3/4, 0.65 = 5854679515581645/2^53,
1.1 = 4953959590107546/2^52, 1.15 = 5179139571476070/2^52. -/
def perf_calc_optimal_maxconns (r : system_resources) : Int :=
  let memory_limit : Int := intOfSizeT (r.available_memory / PERF_MEMORY_PER_CONNECTION)
  let fd_limit : Int := r.max_file_descriptors - 256
  let calculated_limit : Int := if memory_limit < fd_limit then memory_limit else fd_limit
  let optimal :=
    if r.has_high_memory && r.has_many_cores then f64mulTrunc calculated_limit 7656119366529843 53
    else if r.has_high_memory || r.has_many_cores then f64mulTrunc calculated_limit 3 2
    else f64mulTrunc calculated_limit 5854679515581645 53
  let optimal := if r.cpu_cores ≥ 8 then f64mulTrunc optimal 4953959590107546 52 else optimal
  let optimal := if r.cpu_cores ≥ 16 then f64mulTrunc optimal 5179139571476070 52 else optimal
  let optimal := if optimal < 2048 then 2048 else optimal
  clampInt PERF_MIN_MAXCONNS PERF_MAX_MAXCONNS optimal

/-- perf_calc_optimal_shards, performance_tuning.c lines 142-186.
`optimal / 2` on line 153 is C truncating division (`Int.tdiv`).
`shard_memory_usage` is computed as an `int` product converted to `size_t`.
The comparison `power_of_2 / 2 >= optimal * 0.75` on line 175 compares the
`int` value `power_of_2 / 2` (converted to double, exact) with the double
product `optimal * 0.75`; since 0.75 = 3/4 and the magnitudes of any defined
execution stay far below 2^53, it is exactly `3 * optimal <= 4 * (power_of_2 / 2)`. -/
def perf_calc_optimal_shards (r : system_resources) (nthreads : Int) : Int :=
  let optimal : Int := nthreads * 128
  let optimal :=
    if r.has_high_memory then optimal * 2
    else if r.total_memory < PERF_MEDIUM_MEMORY_THRESHOLD then optimal.tdiv 2
    else optimal
  let optimal :=
    if r.cpu_cores ≥ 16 then f64mulTrunc optimal 3 1
    else if r.cpu_cores ≥ 8 then f64mulTrunc optimal 5 2
    else optimal
  let shard_memory_usage : Nat := toSizeT (optimal * (PERF_MEMORY_PER_SHARD : Nat))
  let available_for_shards : Nat := r.available_memory / 4
  let optimal :=
    if shard_memory_usage > available_for_shards
    then intOfSizeT (available_for_shards / PERF_MEMORY_PER_SHARD)
    else optimal
  let power_of_2 := pow2Loop optimal
  let optimal :=
    if 3 * optimal ≤ 4 * power_of_2.tdiv 2 then power_of_2.tdiv 2 else power_of_2
  clampInt PERF_MIN_SHARDS PERF_MAX_SHARDS optimal

/-- perf_validate_backlog, performance_tuning.c lines 189-191. -/
def perf_validate_backlog (backlog : Int) : Bool :=
  decide (backlog ≥ PERF_MIN_BACKLOG ∧ backlog ≤ PERF_MAX_BACKLOG)

/-- perf_validate_queuesize, performance_tuning.c lines 193-195. -/
def perf_validate_queuesize (queuesize : Int) : Bool :=
  decide (queuesize ≥ PERF_MIN_QUEUESIZE ∧ queuesize ≤ PERF_MAX_QUEUESIZE)

/-- perf_validate_maxconns, performance_tuning.c lines 197-205.  The final
comparison `required_memory < available_memory * 0.5` converts both `size_t`
operands to `double` (rounding each to 53 bits) and halves the right-hand
side, which is exact scaling; so it holds iff
`2 * rnd53 required < rnd53 available`. -/
def perf_validate_maxconns (maxconns : Int) (available_memory : Nat) : Bool :=
  if maxconns < PERF_MIN_MAXCONNS ∨ maxconns > PERF_MAX_MAXCONNS then false
  else
    let required_memory : Nat := toSizeT maxconns * PERF_MEMORY_PER_CONNECTION
    decide (2 * rnd53 required_memory < rnd53 available_memory)

/-- perf_validate_shards, performance_tuning.c lines 207-215.  The range
check returns early, so the unguarded division `nshards / nthreads` (C
truncating division) is only reached for in-range `nshards`; division by
zero is undefined in C, embedded as `none`. -/
def perf_validate_shards (nshards nthreads : Int) : Option Bool :=
  if nshards < PERF_MIN_SHARDS ∨ nshards > PERF_MAX_SHARDS then some false
  else if nthreads = 0 then none
  else
    let ratio := nshards.tdiv nthreads
    some (decide (ratio ≥ 4 ∧ ratio ≤ 8192))

/-- perf_validate_config, performance_tuning.c lines 218-255.  The detected
system resources (obtained in the source by calling
perf_detect_system_resources at the top of the function) are passed
explicitly as `r`.  The verdict is
`perf_validate_backlog(backlog) && perf_validate_queuesize(queuesize) &&
perf_validate_maxconns(maxconns, r.available_memory) &&
perf_validate_shards(nshards, r.cpu_cores)`; `&&` short-circuits, so the
partial shard validation is reached only when the first three checks pass.
The performance-warning `printf` calls on lines 227-251 only produce console
output and never change the returned verdict; they are omitted here. -/
def perf_validate_config (r : system_resources)
    (backlog queuesize maxconns nshards : Int) : Option Bool :=
  if perf_validate_backlog backlog && perf_validate_queuesize queuesize &&
      perf_validate_maxconns maxconns r.available_memory then
    perf_validate_shards nshards r.cpu_cores
  else
    some false

/-- Value of `optimal` in perf_calc_optimal_shards just before the memory
constraint check (performance_tuning.c lines 147-161): the thread-scaled
base after the memory branch and the core-count boost.  Proof-side
decomposition of `perf_calc_optimal_shards`; see `shards_decomp`. -/
def shardsHead (r : system_resources) (nthreads : Int) : Int :=
  let optimal : Int := nthreads * 128
  let optimal :=
    if r.has_high_memory then optimal * 2
    else if r.total_memory < PERF_MEDIUM_MEMORY_THRESHOLD then optimal.tdiv 2
    else optimal
  if r.cpu_cores ≥ 16 then f64mulTrunc optimal 3 1
  else if r.cpu_cores ≥ 8 then f64mulTrunc optimal 5 2
  else optimal

/-- Remainder of perf_calc_optimal_shards (performance_tuning.c lines
163-185): memory constraint, power-of-2 alignment and bounds.  Proof-side
decomposition; see `shards_decomp`. -/
def shardsTail (avail : Nat) (o : Int) : Int :=
  let shard_memory_usage : Nat := toSizeT (o * (PERF_MEMORY_PER_SHARD : Nat))
  let available_for_shards : Nat := avail / 4
  let optimal :=
    if shard_memory_usage > available_for_shards
    then intOfSizeT (available_for_shards / PERF_MEMORY_PER_SHARD)
    else o
  let power_of_2 := pow2Loop optimal
  let optimal :=
    if 3 * optimal ≤ 4 * power_of_2.tdiv 2 then power_of_2.tdiv 2 else power_of_2
  clampInt PERF_MIN_SHARDS PERF_MAX_SHARDS optimal

theorem shards_decomp (r : system_resources) (nthreads : Int) :
    perf_calc_optimal_shards r nthreads = shardsTail r.available_memory (shardsHead r nthreads) :=
  rfl

/-!
Model of the cache engine.  The engine itself (pogocache.c) is not part of
the sources at hand; only its public header contract, the example callers
(examples/basic_usage.c, examples/advanced_features.c) and the
specification describe it.  The definitions below are therefore modelled
from the specification, sections 3 and 4 (data model, shard store
store/load/sweep semantics, CAS versioning, lazy TTL expiration).  Bytes
are modelled as `Nat` and byte sequences as `List Nat`; absolute times and
TTLs are `Nat` in the fixed sub-second integer unit of the spec; a TTL of
zero denotes no expiration.
-/

/-- Modelled from the spec: store result codes INSERTED, REPLACED and
CAS_MISMATCH of the missing pogocache_store (spec sections 4.2 and 6). -/
inductive StoreResult where
  | inserted
  | replaced
  | casMismatch
deriving DecidableEq

/-- Modelled from the spec: load result of the missing pogocache_load; FOUND
delivers the entry value, flags and CAS stamp to the read callback, spec
section 4.2. -/
inductive LoadResult where
  | found (value : List Nat) (flags : Nat) (cas : Nat)
  | notFound
deriving DecidableEq

/-- Modelled from the spec: eviction reasons EXPIRED, LOW_MEMORY, CLEARED
(spec sections 4.3 and 6). -/
inductive EvictReason where
  | expired
  | lowmem
  | cleared
deriving DecidableEq

/-- Modelled from the spec: an Entry of the missing shard store (spec
section 3): value bytes, optional absolute expiry (`none` = never expires),
caller flags, CAS stamp. -/
structure Entry where
  value : List Nat
  expires : Option Nat
  flags : Nat
  cas : Nat
deriving DecidableEq

/-- Modelled from the spec: the cache state of the missing engine, with the
per-key entry mapping (an association list; every key occurs at most once),
the monotonically increasing CAS counter and the CAS-tracking flag (spec
section 3).  Shard routing is invisible to the per-key contract the claims
exercise, so a single table stands for the union of the shard tables. -/
structure Cache where
  entries : List (List Nat × Entry)
  casCounter : Nat
  usecas : Bool
deriving DecidableEq

/-- Modelled from the spec: physical lookup of the entry stored under a key
(present even when expired, until swept; spec section 4.2). -/
def lookupE (c : Cache) (k : List Nat) : Option Entry :=
  (c.entries.find? (fun p => p.1 == k)).map (fun p => p.2)

/-- Modelled from the spec: an entry is live at time `now` unless its expiry
time has passed (spec section 4.2; an entry with expiry `t` stored at time
`s` with TTL `d` has `t = s + d` and is expired once `now ≥ t`). -/
def isLive (now : Nat) (e : Entry) : Bool :=
  match e.expires with
  | none => true
  | some t => decide (now < t)

/-- Modelled from the spec: lookup as seen by readers, treating an
expired-but-not-yet-swept entry as absent (lazy expiration, spec section
4.2). -/
def lookupLive (c : Cache) (now : Nat) (k : List Nat) : Option Entry :=
  match lookupE c k with
  | some e => if isLive now e then some e else none
  | none => none

/-- Modelled from the spec: the missing pogocache_store (spec section 4.2).
Expiration is `now + ttl` computed at store time, `ttl = 0` meaning
permanent.  If the key is absent (or only an expired entry remains): a
guarded store (`casop`) fails, an unguarded store inserts with a fresh CAS
stamp.  If present and unguarded, or guarded with a matching stamp:
overwrite with a fresh stamp, REPLACED.  Guarded with a stale stamp: no
mutation, CAS_MISMATCH.  Fresh stamps come from the monotonically
increasing cache counter when CAS tracking is enabled. -/
def store (c : Cache) (now : Nat) (k v : List Nat) (ttl : Nat) (flags : Nat)
    (casop : Bool) (cas : Nat) : StoreResult × Cache :=
  let expiry : Option Nat := if ttl = 0 then none else some (now + ttl)
  let newCas : Nat := if c.usecas then c.casCounter + 1 else 0
  let newCounter : Nat := if c.usecas then c.casCounter + 1 else c.casCounter
  let others := c.entries.filter (fun p => !(p.1 == k))
  match lookupLive c now k with
  | none =>
      if casop then (.casMismatch, c)
      else (.inserted,
        { c with entries := (k, ⟨v, expiry, flags, newCas⟩) :: others
                 casCounter := newCounter })
  | some e =>
      if casop && !(e.cas == cas) then (.casMismatch, c)
      else (.replaced,
        { c with entries := (k, ⟨v, expiry, flags, newCas⟩) :: others
                 casCounter := newCounter })

/-- Modelled from the spec: the missing pogocache_load (spec section 4.2),
reporting NOT_FOUND for absent or expired entries (lazy expiration) and
FOUND with the current value, flags and CAS stamp otherwise.  The
update-on-load capability is not exercised by the claims and is omitted. -/
def load (c : Cache) (now : Nat) (k : List Nat) : LoadResult :=
  match lookupLive c now k with
  | none => .notFound
  | some e => .found e.value e.flags e.cas

/-- Modelled from the spec: the missing pogocache_count, the number of live
entries (spec section 4.5). -/
def count (c : Cache) (now : Nat) : Nat :=
  (c.entries.filter (fun p => isLive now p.2)).length

/-- Modelled from the spec: outcome of the missing pogocache_sweep (spec
section 4.2): counts of removed and kept entries, the eviction notifications
issued (key and reason), and the cache afterwards. -/
structure SweepResult where
  swept : Nat
  kept : Nat
  evicted : List (List Nat × EvictReason)
  cache : Cache
deriving DecidableEq

/-- Modelled from the spec: the missing pogocache_sweep (spec section 4.2):
remove every entry whose expiry has passed as of `now`, invoking the
eviction notification with reason EXPIRED once per removed entry, and
report how many were swept and kept. -/
def sweep (c : Cache) (now : Nat) : SweepResult :=
  let dead := c.entries.filter (fun p => !(isLive now p.2))
  let alive := c.entries.filter (fun p => isLive now p.2)
  { swept := dead.length
    kept := alive.length
    evicted := dead.map (fun p => (p.1, EvictReason.expired))
    cache := { c with entries := alive } }


/-!
Helper lemmas.
-/

set_option maxRecDepth 10000

theorem clampInt_lb (lo hi x : Int) (h : lo ≤ hi) : lo ≤ clampInt lo hi x := by
  simp only [clampInt]
  split_ifs <;> omega

theorem clampInt_ub (lo hi x : Int) (h : lo ≤ hi) : clampInt lo hi x ≤ hi := by
  simp only [clampInt]
  split_ifs <;> omega

theorem clampInt_eq_self (lo hi x : Int) (h1 : lo ≤ x) (h2 : x ≤ hi) :
    clampInt lo hi x = x := by
  simp only [clampInt]
  split_ifs <;> omega

theorem rnd53_small (n : Nat) (h : n < 2 ^ 53) : rnd53 n = n := by
  simp only [rnd53]
  rw [if_pos h]

theorem tdiv_two_ofNat (a : Nat) : ((a : Int)).tdiv 2 = ((a / 2 : Nat) : Int) := rfl

theorem tdiv_four_ofNat (a : Nat) : ((a : Int)).tdiv 4 = ((a / 4 : Nat) : Int) := rfl

theorem f64mulTrunc_3_1 (x : Int) (h0 : 0 ≤ x) (hx : x ≤ 4096) :
    f64mulTrunc x 3 1 = (3 * x).tdiv 2 := by
  simp only [f64mulTrunc]
  rw [if_pos h0, rnd53_small _ (by omega)]
  have e : 3 * x = ((x.toNat * 3 : Nat) : Int) := by
    push_cast [Int.toNat_of_nonneg h0]; ring
  rw [e, tdiv_two_ofNat]
  norm_num

theorem f64mulTrunc_5_2 (x : Int) (h0 : 0 ≤ x) (hx : x ≤ 4096) :
    f64mulTrunc x 5 2 = (5 * x).tdiv 4 := by
  simp only [f64mulTrunc]
  rw [if_pos h0, rnd53_small _ (by omega)]
  have e : 5 * x = ((x.toNat * 5 : Nat) : Int) := by
    push_cast [Int.toNat_of_nonneg h0]; ring
  rw [e, tdiv_four_ofNat]
  norm_num

theorem pow2LoopAux_pow (fuel : Nat) (optimal p : Int) (h : ∃ j : Nat, p = 2 ^ j) :
    ∃ k : Nat, pow2LoopAux fuel optimal p = 2 ^ k := by
  induction fuel generalizing p with
  | zero => exact h
  | succ fuel ih =>
      simp only [pow2LoopAux]
      split_ifs with hlt
      · obtain ⟨j, hj⟩ := h
        exact ih (2 * p) ⟨j + 1, by rw [hj]; ring⟩
      · exact h

theorem pow2Loop_pow (optimal : Int) : ∃ k : Nat, pow2Loop optimal = 2 ^ k :=
  pow2LoopAux_pow _ _ _ ⟨0, rfl⟩

theorem pow2LoopAux_ge (fuel : Nat) (optimal : Int) :
    ∀ p : Int, 1 ≤ p → optimal ≤ 2 ^ fuel * p → optimal ≤ pow2LoopAux fuel optimal p := by
  induction fuel with
  | zero => intro p h1 h2; simpa [pow2LoopAux] using h2
  | succ fuel ih =>
      intro p h1 h2
      simp only [pow2LoopAux]
      split_ifs with hlt
      · exact ih (2 * p) (by omega) (by rw [pow_succ] at h2; nlinarith)
      · omega

theorem pow2Loop_ge (optimal : Int) : optimal ≤ pow2Loop optimal := by
  apply pow2LoopAux_ge _ _ 1 (by omega)
  rcases le_or_lt optimal 0 with h | h
  · have : (0 : Int) < 2 ^ (optimal.toNat + 1) * 1 := by positivity
    omega
  · have h1 : (optimal.toNat : Int) = optimal := Int.toNat_of_nonneg (by omega)
    have h2 : optimal.toNat < 2 ^ optimal.toNat := Nat.lt_two_pow _
    have h3 : (2 : Int) ^ optimal.toNat ≤ 2 ^ (optimal.toNat + 1) * 1 := by
      rw [mul_one, pow_succ]; nlinarith [pow_pos (by norm_num : (0:Int) < 2) optimal.toNat]
    have h4 : (optimal.toNat : Int) < (2 : Int) ^ optimal.toNat := by
      exact_mod_cast h2
    omega

theorem pow2LoopAux_lt (fuel : Nat) (optimal : Int) :
    ∀ p : Int, p < 2 * optimal → pow2LoopAux fuel optimal p < 2 * optimal := by
  induction fuel with
  | zero => intro p h; simpa [pow2LoopAux] using h
  | succ fuel ih =>
      intro p h
      simp only [pow2LoopAux]
      split_ifs with hlt
      · exact ih (2 * p) (by omega)
      · exact h

theorem pow2Loop_lt (optimal : Int) (h : 1 ≤ optimal) : pow2Loop optimal < 2 * optimal :=
  pow2LoopAux_lt _ _ 1 (by omega)

theorem pow2Loop_pos (optimal : Int) : 1 ≤ pow2Loop optimal := by
  obtain ⟨k, hk⟩ := pow2Loop_pow optimal
  rw [hk]
  have : (0 : Int) < 2 ^ k := pow_pos (by norm_num) k
  omega

/-- C1: every recommendation of the resource planner lies within its
documented minimum/maximum bounds: for every system_resources input,
perf_calc_optimal_backlog lands in [256, 16384], perf_calc_optimal_queuesize
in [64, 4096], perf_calc_optimal_maxconns in [128, 131072] and, for every
nthreads, perf_calc_optimal_shards in [32, 131072].  Each function ends with
the two clamping conditionals, which force the bounds. -/
theorem perf_calc_optimal_in_bounds (r : system_resources) (nthreads : Int) :
    (PERF_MIN_BACKLOG ≤ perf_calc_optimal_backlog r ∧
      perf_calc_optimal_backlog r ≤ PERF_MAX_BACKLOG) ∧
    (PERF_MIN_QUEUESIZE ≤ perf_calc_optimal_queuesize r ∧
      perf_calc_optimal_queuesize r ≤ PERF_MAX_QUEUESIZE) ∧
    (PERF_MIN_MAXCONNS ≤ perf_calc_optimal_maxconns r ∧
      perf_calc_optimal_maxconns r ≤ PERF_MAX_MAXCONNS) ∧
    (PERF_MIN_SHARDS ≤ perf_calc_optimal_shards r nthreads ∧
      perf_calc_optimal_shards r nthreads ≤ PERF_MAX_SHARDS) := by
  refine ⟨⟨?_, ?_⟩, ⟨?_, ?_⟩, ⟨?_, ?_⟩, ⟨?_, ?_⟩⟩
  · simp only [perf_calc_optimal_backlog]
    exact clampInt_lb _ _ _ (by norm_num)
  · simp only [perf_calc_optimal_backlog]
    exact clampInt_ub _ _ _ (by norm_num)
  · simp only [perf_calc_optimal_queuesize]
    exact clampInt_lb _ _ _ (by norm_num)
  · simp only [perf_calc_optimal_queuesize]
    exact clampInt_ub _ _ _ (by norm_num)
  · simp only [perf_calc_optimal_maxconns]
    exact clampInt_lb _ _ _ (by norm_num)
  · simp only [perf_calc_optimal_maxconns]
    exact clampInt_ub _ _ _ (by norm_num)
  · simp only [perf_calc_optimal_shards]
    exact clampInt_lb _ _ _ (by norm_num)
  · simp only [perf_calc_optimal_shards]
    exact clampInt_ub _ _ _ (by norm_num)

theorem clamp_two_pow (k : Nat) :
    ∃ j : Nat, clampInt PERF_MIN_SHARDS PERF_MAX_SHARDS ((2 : Int) ^ k) = 2 ^ j := by
  simp only [clampInt, PERF_MIN_SHARDS, PERF_MAX_SHARDS]
  split_ifs with h1 h2 h2
  · exact absurd h2 (by norm_num)
  · exact ⟨5, by norm_num⟩
  · exact ⟨17, by norm_num⟩
  · exact ⟨k, rfl⟩

theorem pow2_stage_pow (o : Int) :
    ∃ k : Nat, clampInt PERF_MIN_SHARDS PERF_MAX_SHARDS
      (if 3 * o ≤ 4 * (pow2Loop o).tdiv 2 then (pow2Loop o).tdiv 2 else pow2Loop o)
      = 2 ^ k := by
  obtain ⟨k, hk⟩ := pow2Loop_pow o
  by_cases hc : 3 * o ≤ 4 * (pow2Loop o).tdiv 2
  · rw [if_pos hc, hk]
    cases k with
    | zero => exact ⟨5, by decide⟩
    | succ k =>
        have h2 : ((2 : Int) ^ (k + 1)).tdiv 2 = 2 ^ k := by
          rw [pow_succ]; exact Int.mul_tdiv_cancel _ (by norm_num)
        rw [h2]
        exact clamp_two_pow k
  · rw [if_neg hc, hk]
    exact clamp_two_pow k

theorem shardsTail_pow (avail : Nat) (o : Int) : ∃ k : Nat, shardsTail avail o = 2 ^ k := by
  simp only [shardsTail]
  exact pow2_stage_pow _

/-- C8: perf_calc_optimal_shards always returns a power of two: the
power-of-2 alignment step produces a power of two (or its truncated half),
and the clamping bounds 32 and 131072 are themselves powers of two.  The
theorem holds for every input of the embedding (which computes every
overflow-free execution exactly), in particular for every nthreads ≥ 0 and
all (necessarily nonnegative) memory fields. -/
theorem perf_calc_optimal_shards_pow2 (r : system_resources) (nthreads : Int) :
    ∃ k : Nat, perf_calc_optimal_shards r nthreads = 2 ^ k := by
  rw [shards_decomp]
  exact shardsTail_pow _ _

/-- C9: perf_detect_system_resources sets available_memory equal to
total_memory (performance_tuning.c line 33), so the computations documented
as based on available memory, such as the memory check of
perf_validate_maxconns, coincide with the same computations on total system
memory for every detected input. -/
theorem detect_available_eq_total (nprocs : Int) (memory : Nat) (rlim_max : Option Int) :
    (perf_detect_system_resources nprocs memory rlim_max).available_memory
      = (perf_detect_system_resources nprocs memory rlim_max).total_memory ∧
    ∀ m : Int, perf_validate_maxconns m
        (perf_detect_system_resources nprocs memory rlim_max).available_memory
      = perf_validate_maxconns m
        (perf_detect_system_resources nprocs memory rlim_max).total_memory :=
  ⟨rfl, fun _ => rfl⟩

/-- C10: perf_validate_shards is total for every nthreads ≥ 1; its division
is unguarded, so nthreads = 0 with an in-range shard count reaches a
division by zero (embedded as `none`); and the internal call site in
perf_validate_config passes the detected cpu_cores as nthreads (reached when
the three preceding short-circuited checks pass). -/
theorem perf_validate_shards_total_pos :
    (∀ nshards nthreads : Int, 1 ≤ nthreads →
      (perf_validate_shards nshards nthreads).isSome = true) ∧
    perf_validate_shards 64 0 = none ∧
    (∀ (r : system_resources) (b q m ns : Int),
      perf_validate_backlog b = true → perf_validate_queuesize q = true →
      perf_validate_maxconns m r.available_memory = true →
      perf_validate_config r b q m ns = perf_validate_shards ns r.cpu_cores) := by
  refine ⟨?_, by decide, ?_⟩
  · intro nshards nthreads h
    simp only [perf_validate_shards]
    split_ifs with h1 h2
    · rfl
    · omega
    · rfl
  · intro r b q m ns h1 h2 h3
    simp only [perf_validate_config, h1, h2, h3, Bool.and_self, if_pos]

theorem perf_validate_shards_total_pos_witness :
    (perf_validate_shards 64 1).isSome = true ∧
    perf_validate_config ⟨2, 2 ^ 33, 2 ^ 33, 4096, false, false⟩ 2048 512 4096 64
      = perf_validate_shards 64 2 :=
  ⟨perf_validate_shards_total_pos.1 64 1 (by norm_num),
   perf_validate_shards_total_pos.2.2 ⟨2, 2 ^ 33, 2 ^ 33, 4096, false, false⟩
     2048 512 4096 64 (by decide) (by decide) (by decide)⟩

/-- C4, counterexample: the verdict of perf_validate_config is not a
function of its four integer arguments alone.  With the same arguments
(backlog 2048, queuesize 512, maxconns 4096, nshards 64) the verdict is true
when the detected resources report 4 cores (shard-to-thread ratio 16) and
false when they report 32 cores (ratio 2), because the function re-detects
the system state and validates against the detected cpu_cores and
available_memory. -/
theorem perf_validate_config_not_arg_pure :
    perf_validate_config ⟨4, 2 ^ 33, 2 ^ 33, 4096, true, false⟩ 2048 512 4096 64
      = some true ∧
    perf_validate_config ⟨32, 2 ^ 33, 2 ^ 33, 4096, true, true⟩ 2048 512 4096 64
      = some false := by
  constructor <;> decide

/-- C4, amended: the perf_calc_optimal_* planners and the validators are
pure functions of their explicit arguments, and the verdict of
perf_validate_config is determined by its four integer arguments together
with the two fields of the detected system state it consults, cpu_cores and
available_memory: two runs agreeing on the four arguments and on those two
detected fields return the same verdict (the warning printf output aside). -/
theorem perf_validate_config_determined (r r2 : system_resources)
    (b q m n : Int) (hc : r.cpu_cores = r2.cpu_cores)
    (hm : r.available_memory = r2.available_memory) :
    perf_validate_config r b q m n = perf_validate_config r2 b q m n := by
  simp only [perf_validate_config, hc, hm]

theorem perf_validate_config_determined_witness :
    perf_validate_config ⟨4, 2 ^ 33, 2 ^ 33, 4096, true, false⟩ 2048 512 4096 64
      = perf_validate_config ⟨4, 2 ^ 20, 2 ^ 33, 500, false, true⟩ 2048 512 4096 64 :=
  perf_validate_config_determined ⟨4, 2 ^ 33, 2 ^ 33, 4096, true, false⟩
    ⟨4, 2 ^ 20, 2 ^ 33, 500, false, true⟩ 2048 512 4096 64 rfl rfl

/-- C3, counterexample: at nshards = 16385, nthreads = 2 the validator
accepts (the truncated integer ratio 16385 / 2 = 8192 passes the check) even
though the shard-to-thread ratio of 16385 to 2 is 8192.5, which is not
between 4 and 8192 inclusive. -/
theorem perf_validate_shards_ratio_overshoot :
    perf_validate_shards 16385 2 = some true ∧ ¬((16385 : ℚ) / 2 ≤ 8192) := by
  constructor
  · decide
  · norm_num

/-- C3, amended: for every nthreads ≥ 1, perf_validate_shards(nshards,
nthreads) returns true iff 32 ≤ nshards ≤ 131072 and the truncated integer
ratio nshards / nthreads lies between 4 and 8192 inclusive, equivalently
4 * nthreads ≤ nshards < 8193 * nthreads; the exact rational ratio may
exceed 8192 by up to (nthreads - 1) / nthreads. -/
theorem perf_validate_shards_characterization (nshards nthreads : Int)
    (h : 1 ≤ nthreads) :
    perf_validate_shards nshards nthreads = some true ↔
    (PERF_MIN_SHARDS ≤ nshards ∧ nshards ≤ PERF_MAX_SHARDS ∧
      4 * nthreads ≤ nshards ∧ nshards < 8193 * nthreads) := by
  simp only [perf_validate_shards, PERF_MIN_SHARDS, PERF_MAX_SHARDS]
  split_ifs with h1 h2
  · simp only [Option.some_inj]
    constructor
    · intro hf; exact absurd hf (by decide)
    · rintro ⟨ha, hb, -, -⟩; exact ((by omega : False)).elim
  · exact ((by omega : False)).elim
  · have hpos : 0 ≤ nshards := by omega
    have htd : nshards.tdiv nthreads = nshards / nthreads :=
      Int.tdiv_eq_ediv hpos (by omega)
    simp only [Option.some_inj, decide_eq_true_eq, htd, ge_iff_le]
    constructor
    · rintro ⟨h4, h8192⟩
      refine ⟨by omega, by omega, (Int.le_ediv_iff_mul_le (by omega)).mp h4, ?_⟩
      by_contra hc
      push_neg at hc
      have h13 : (8193 : Int) ≤ nshards / nthreads :=
        (Int.le_ediv_iff_mul_le (by omega)).mpr (by linarith)
      omega
    · rintro ⟨-, -, h4, hlt⟩
      refine ⟨(Int.le_ediv_iff_mul_le (by omega)).mpr h4, ?_⟩
      by_contra hc
      push_neg at hc
      have h13 : 8193 * nthreads ≤ nshards :=
        (Int.le_ediv_iff_mul_le (by omega)).mp (by omega)
      omega

theorem perf_validate_shards_characterization_witness :
    (1 : Int) ≤ 2 ∧ (perf_validate_shards 256 2 = some true ↔
      (PERF_MIN_SHARDS ≤ (256 : Int) ∧ (256 : Int) ≤ PERF_MAX_SHARDS ∧
        4 * 2 ≤ (256 : Int) ∧ (256 : Int) < 8193 * 2)) :=
  ⟨by norm_num, perf_validate_shards_characterization 256 2 (by norm_num)⟩

theorem toSizeT_nonneg_small (z : Int) (h0 : 0 ≤ z) (h : z < 2 ^ 64) :
    toSizeT z = z.toNat := by
  simp only [toSizeT]
  rw [Int.emod_eq_of_lt h0 (by omega)]

theorem tdiv_two_bounds (a : Int) (h : 0 ≤ a) :
    2 * a.tdiv 2 ≤ a ∧ a ≤ 2 * a.tdiv 2 + 1 := by
  rw [Int.tdiv_eq_ediv h (by norm_num)]
  omega

theorem tdiv_four_bounds (a : Int) (h : 0 ≤ a) :
    4 * a.tdiv 4 ≤ a ∧ a ≤ 4 * a.tdiv 4 + 3 := by
  rw [Int.tdiv_eq_ediv h (by norm_num)]
  omega

theorem shardsHead_bounds (r : system_resources) (n : Int) (h1 : 1 ≤ n) (h8 : n ≤ 8) :
    64 * n ≤ shardsHead r n ∧ shardsHead r n ≤ 384 * n := by
  have key : ∀ o1 : Int, 64 * n ≤ o1 → o1 ≤ 256 * n →
      64 * n ≤ (if r.cpu_cores ≥ 16 then f64mulTrunc o1 3 1
        else if r.cpu_cores ≥ 8 then f64mulTrunc o1 5 2 else o1) ∧
      (if r.cpu_cores ≥ 16 then f64mulTrunc o1 3 1
        else if r.cpu_cores ≥ 8 then f64mulTrunc o1 5 2 else o1) ≤ 384 * n := by
    intro o1 hl hr
    split_ifs with hc16 hc8
    · rw [f64mulTrunc_3_1 _ (by omega) (by omega)]
      have := tdiv_two_bounds (3 * o1) (by omega)
      omega
    · rw [f64mulTrunc_5_2 _ (by omega) (by omega)]
      have := tdiv_four_bounds (5 * o1) (by omega)
      omega
    · omega
  simp only [shardsHead]
  refine key _ ?_ ?_ <;>
  · split_ifs with hhm hlm
    · omega
    · have e1 : n * 128 = 2 * (64 * n) := by ring
      rw [e1, Int.mul_tdiv_cancel_left _ (by norm_num)]
      try omega
    · omega

theorem validate_shards_of_bounds (s n : Int) (h1 : 1 ≤ n) (hlo : 4 * n ≤ s)
    (hhi : s ≤ 8192) (hs1 : 32 ≤ s) :
    perf_validate_shards s n = some true := by
  simp only [perf_validate_shards, PERF_MIN_SHARDS, PERF_MAX_SHARDS]
  rw [if_neg (by omega), if_neg (by omega), Option.some_inj, decide_eq_true_eq,
    Int.tdiv_eq_ediv (by omega) (by omega)]
  constructor
  · exact (Int.le_ediv_iff_mul_le (by omega)).mpr hlo
  · calc s / n ≤ s := Int.ediv_le_self n (by omega)
      _ ≤ 8192 := hhi

theorem shardsTail_validate (avail : Nat) (o n : Int) (h1 : 1 ≤ n) (h8 : n ≤ 8)
    (hl : 64 * n ≤ o) (hr : o ≤ 384 * n) (hm : 2 ^ 25 ≤ avail) :
    perf_validate_shards (shardsTail avail o) n = some true := by
  have ho0 : 0 ≤ o := by omega
  have ho3 : o ≤ 3072 := by omega
  simp only [shardsTail, PERF_MIN_SHARDS, PERF_MAX_SHARDS]
  have hts : toSizeT (o * (PERF_MEMORY_PER_SHARD : Nat)) = (o * 2048).toNat := by
    rw [show ((PERF_MEMORY_PER_SHARD : Nat) : Int) = 2048 by norm_num]
    exact toSizeT_nonneg_small _ (by omega) (by omega)
  have hskip : ¬ (toSizeT (o * (PERF_MEMORY_PER_SHARD : Nat)) > avail / 4) := by
    rw [hts]
    omega
  rw [if_neg hskip]
  have hp_ge := pow2Loop_ge o
  have hp_lt := pow2Loop_lt o (by omega)
  have hp_pos := pow2Loop_pos o
  have htdb := tdiv_two_bounds (pow2Loop o) (by omega)
  by_cases hch : 3 * o ≤ 4 * (pow2Loop o).tdiv 2
  · rw [if_pos hch, clampInt_eq_self _ _ _ (by omega) (by omega)]
    exact validate_shards_of_bounds _ _ h1 (by omega) (by omega) (by omega)
  · rw [if_neg hch, clampInt_eq_self _ _ _ (by omega) (by omega)]
    exact validate_shards_of_bounds _ _ h1 (by omega) (by omega) (by omega)

/-- C2, counterexample: the claim fails at nthreads = 9 with resources
reporting 1 core and no memory: perf_calc_optimal_shards returns the lower
clamp 32, whose shard-to-thread ratio 32 / 9 = 3 fails the companion
validation, so perf_validate_shards returns false. -/
theorem shards_recommendation_validate_fails :
    perf_validate_shards (perf_calc_optimal_shards ⟨1, 0, 0, 0, false, false⟩ 9) 9
      = some false := by
  decide

/-- C2, amended: the shard recommendation passes its companion validation
whenever 1 ≤ nthreads ≤ 8 and at least 2^25 bytes (32 MiB) of available
memory are reported; with a large nthreads or scarce memory the clamping of
the recommendation can push the truncated shard-to-thread ratio below 4 and
validation fails (see the counterexample). -/
theorem shards_recommendation_validates (r : system_resources) (nthreads : Int)
    (h1 : 1 ≤ nthreads) (h8 : nthreads ≤ 8) (hm : 2 ^ 25 ≤ r.available_memory) :
    perf_validate_shards (perf_calc_optimal_shards r nthreads) nthreads = some true := by
  rw [shards_decomp]
  obtain ⟨hl, hr⟩ := shardsHead_bounds r nthreads h1 h8
  exact shardsTail_validate _ _ _ h1 h8 hl hr hm

theorem shards_recommendation_validates_witness :
    ((1 : Int) ≤ 4 ∧ (4 : Int) ≤ 8 ∧ (2 ^ 25 : Nat) ≤
      (system_resources.mk 4 (2 ^ 33) (2 ^ 33) 4096 true false).available_memory) ∧
    perf_validate_shards
      (perf_calc_optimal_shards ⟨4, 2 ^ 33, 2 ^ 33, 4096, true, false⟩ 4) 4 = some true :=
  ⟨⟨by norm_num, by norm_num, by norm_num⟩,
   shards_recommendation_validates ⟨4, 2 ^ 33, 2 ^ 33, 4096, true, false⟩ 4
     (by norm_num) (by norm_num) (by norm_num)⟩

theorem store_unguarded_state (c : Cache) (now : Nat) (k v : List Nat)
    (ttl fl cas : Nat) :
    (store c now k v ttl fl false cas).2 =
      ⟨(k, ⟨v, if ttl = 0 then none else some (now + ttl), fl,
          if c.usecas then c.casCounter + 1 else 0⟩) ::
        c.entries.filter (fun p => !(p.1 == k)),
       if c.usecas then c.casCounter + 1 else c.casCounter, c.usecas⟩ := by
  simp only [store]
  cases lookupLive c now k <;> rfl

theorem lookupE_cons_self (k : List Nat) (e : Entry)
    (l : List (List Nat × Entry)) (cc : Nat) (uc : Bool) :
    lookupE ⟨(k, e) :: l, cc, uc⟩ k = some e := by
  simp [lookupE, List.find?_cons]

/-- C6: storing any byte sequences (k, v) with no TTL and then loading k
reports FOUND and delivers exactly the bytes v (and the stored flags and
fresh CAS stamp) to the read callback, at any later read time, for any
starting cache state. -/
theorem store_load_roundtrip (c : Cache) (now now2 : Nat) (k v : List Nat)
    (fl : Nat) :
    load (store c now k v 0 fl false 0).2 now2 k
      = .found v fl (if c.usecas then c.casCounter + 1 else 0) := by
  rw [store_unguarded_state]
  simp [load, lookupLive, lookupE_cons_self, isLive]

theorem store_guard_mismatch (c : Cache) (now : Nat) (k v : List Nat)
    (fl cas : Nat) (e : Entry)
    (hl : lookupLive c now k = some e) (hne : (e.cas == cas) = false) :
    store c now k v 0 fl true cas = (.casMismatch, c) := by
  simp [store, hl, hne]

/-- C5: for a CAS-tracking cache holding a live entry e for key k (with a
consistent stamp, never exceeding the cache counter), a guarded store with
cas = e.cas succeeds with REPLACED and installs a fresh stamp different from
e.cas, and a subsequent guarded store with the stale e.cas fails with
CAS_MISMATCH and leaves the cache, in particular the stored value,
unchanged. -/
theorem cas_guard_store (c : Cache) (now now2 : Nat) (k : List Nat) (e : Entry)
    (v2 v3 : List Nat) (fl2 fl3 : Nat)
    (huc : c.usecas = true)
    (hfind : lookupE c k = some e)
    (hlive : isLive now e = true)
    (hinv : e.cas ≤ c.casCounter) :
    (store c now k v2 0 fl2 true e.cas).1 = .replaced ∧
    lookupE (store c now k v2 0 fl2 true e.cas).2 k
      = some ⟨v2, none, fl2, c.casCounter + 1⟩ ∧
    c.casCounter + 1 ≠ e.cas ∧
    (store (store c now k v2 0 fl2 true e.cas).2 now2 k v3 0 fl3 true e.cas).1
      = .casMismatch ∧
    (store (store c now k v2 0 fl2 true e.cas).2 now2 k v3 0 fl3 true e.cas).2
      = (store c now k v2 0 fl2 true e.cas).2 := by
  have hll : lookupLive c now k = some e := by
    simp [lookupLive, hfind, hlive]
  have hs1 : store c now k v2 0 fl2 true e.cas
      = (.replaced, ⟨(k, ⟨v2, none, fl2, c.casCounter + 1⟩) ::
          c.entries.filter (fun p => !(p.1 == k)), c.casCounter + 1, c.usecas⟩) := by
    simp [store, hll, huc]
  have hl2 : lookupLive (store c now k v2 0 fl2 true e.cas).2 now2 k
      = some ⟨v2, none, fl2, c.casCounter + 1⟩ := by
    rw [hs1]
    simp [lookupLive, lookupE_cons_self, isLive]
  have hne : ((⟨v2, none, fl2, c.casCounter + 1⟩ : Entry).cas == e.cas) = false := by
    simp only [beq_eq_false_iff_ne, ne_eq]
    omega
  have hs2 := store_guard_mismatch (store c now k v2 0 fl2 true e.cas).2 now2 k v3 fl3
    e.cas ⟨v2, none, fl2, c.casCounter + 1⟩ hl2 hne
  refine ⟨by rw [hs1], ?_, by omega, by rw [hs2], by rw [hs2]⟩
  rw [hs1]
  exact lookupE_cons_self _ _ _ _ _

theorem cas_guard_store_witness :
    (store ⟨[([1], ⟨[5], none, 0, 1⟩)], 1, true⟩ 0 [1] [6] 0 0 true 1).1
      = .replaced ∧
    lookupE (store ⟨[([1], ⟨[5], none, 0, 1⟩)], 1, true⟩ 0 [1] [6] 0 0 true 1).2 [1]
      = some ⟨[6], none, 0, 2⟩ ∧
    (2 : Nat) ≠ 1 ∧
    (store (store ⟨[([1], ⟨[5], none, 0, 1⟩)], 1, true⟩ 0 [1] [6] 0 0 true 1).2
        3 [1] [7] 0 0 true 1).1 = .casMismatch ∧
    (store (store ⟨[([1], ⟨[5], none, 0, 1⟩)], 1, true⟩ 0 [1] [6] 0 0 true 1).2
        3 [1] [7] 0 0 true 1).2
      = (store ⟨[([1], ⟨[5], none, 0, 1⟩)], 1, true⟩ 0 [1] [6] 0 0 true 1).2 :=
  cas_guard_store ⟨[([1], ⟨[5], none, 0, 1⟩)], 1, true⟩ 0 3 [1] ⟨[5], none, 0, 1⟩
    [6] [7] 0 0 rfl rfl rfl (by decide)

/-- C7: storing (k, v) with TTL t > 0 at time `now` and letting the time
pass the computed expiry now + t makes load report NOT_FOUND already before
any sweep (lazy expiration); the sweep at that time physically removes the
entry, so every count excludes it, and the eviction notification fires
exactly once for k, with reason EXPIRED. -/
theorem ttl_expiry_lazy_and_sweep (c : Cache) (now now2 : Nat) (k v : List Nat)
    (fl t : Nat) (ht : 0 < t) (hpast : now + t < now2) :
    load (store c now k v t fl false 0).2 now2 k = .notFound ∧
    lookupE (sweep (store c now k v t fl false 0).2 now2).cache k = none ∧
    (sweep (store c now k v t fl false 0).2 now2).evicted.countP
      (fun ev => ev.1 == k && decide (ev.2 = EvictReason.expired)) = 1 ∧
    (sweep (store c now k v t fl false 0).2 now2).evicted.countP
      (fun ev => ev.1 == k) = 1 := by
  rw [store_unguarded_state, if_neg (by omega : ¬ t = 0)]
  have hdead : isLive now2 (⟨v, some (now + t), fl,
      if c.usecas then c.casCounter + 1 else 0⟩ : Entry) = false := by
    simp only [isLive, decide_eq_false_iff_not]
    omega
  refine ⟨?_, ?_, ?_, ?_⟩
  · simp [load, lookupLive, lookupE_cons_self, hdead]
  · simp only [sweep]
    rw [List.filter_cons_of_neg (by simp [hdead])]
    simp only [lookupE, Option.map_eq_none', List.find?_eq_none]
    intro x hx
    have hx1 := (List.mem_filter.mp hx).1
    have hx2 := (List.mem_filter.mp hx1).2
    simp only [Bool.not_eq_true'] at hx2
    simp [hx2]
  · simp only [sweep]
    rw [List.filter_cons_of_pos (by simp [hdead])]
    rw [List.map_cons, List.countP_cons]
    have h0 : (((c.entries.filter (fun p => !(p.1 == k))).filter
        (fun p => !(isLive now2 p.2))).map
          (fun p => (p.1, EvictReason.expired))).countP
        (fun ev => ev.1 == k && decide (ev.2 = EvictReason.expired)) = 0 := by
      rw [List.countP_map, List.countP_eq_zero]
      intro a ha
      have h1 := (List.mem_filter.mp ha).1
      have h2 := (List.mem_filter.mp h1).2
      simp only [Bool.not_eq_true'] at h2
      simp [h2]
    rw [h0]
    simp
  · simp only [sweep]
    rw [List.filter_cons_of_pos (by simp [hdead])]
    rw [List.map_cons, List.countP_cons]
    have h0 : (((c.entries.filter (fun p => !(p.1 == k))).filter
        (fun p => !(isLive now2 p.2))).map
          (fun p => (p.1, EvictReason.expired))).countP
        (fun ev => ev.1 == k) = 0 := by
      rw [List.countP_map, List.countP_eq_zero]
      intro a ha
      have h1 := (List.mem_filter.mp ha).1
      have h2 := (List.mem_filter.mp h1).2
      simp only [Bool.not_eq_true'] at h2
      simp [h2]
    rw [h0]
    simp

theorem ttl_expiry_lazy_and_sweep_witness :
    load (store ⟨[], 0, true⟩ 0 [1] [2] 2 0 false 0).2 3 [1] = .notFound ∧
    lookupE (sweep (store ⟨[], 0, true⟩ 0 [1] [2] 2 0 false 0).2 3).cache [1] = none ∧
    (sweep (store ⟨[], 0, true⟩ 0 [1] [2] 2 0 false 0).2 3).evicted.countP
      (fun ev => ev.1 == [1] && decide (ev.2 = EvictReason.expired)) = 1 ∧
    (sweep (store ⟨[], 0, true⟩ 0 [1] [2] 2 0 false 0).2 3).evicted.countP
      (fun ev => ev.1 == [1]) = 1 :=
  ttl_expiry_lazy_and_sweep ⟨[], 0, true⟩ 0 3 [1] [2] 0 2 (by decide) (by decide)
